import Mathlib

/-!
Verification of the WhatTheFork meal-logging assistant.

The definitions below are a shallow embedding of the repository's source:
  * `braceSpan`, `json_loads`, `extract_nutrition` model the response-extraction
    pipeline of `chat_with_ollama` in WTF.py (lines 185-214): the greedy regex
    search for a brace span followed by a JSON decode.
  * `DailyState`, `reset_daily_calories_if_new_day`, `reset_calories`,
    `imageTurnState` model the global calorie accumulator and its mutations
    (WTF.py lines 14-25, 81-214, 419-423, 670-675).
  * `imageTurnEvents`, `textTurnEvents`, `streamSnapshots` model the order of
    model calls, transcript appends and streamed updates in `chat_with_ollama`.
  * `Food`, `save_food`, `get_all_foods` model database.py and models.py.
  * `progress_percentage`, `visual_width` model `create_progress_bar_html`
    (WTF.py lines 27-50).
  * `calculate_bmr`, `calculate_daily_calories`, `goal_adjustment`,
    `target_calories` model user_profile.py (lines 41-60, 90-103).

Texts are embedded as `List Char`; Python numbers (ints and the values decoded
from JSON) as exact rationals `ℚ`; calendar dates as abstract `Nat` day indices.
-/

/-- The character with code point 123, an opening curly brace. -/
def lbrace : Char := Char.ofNat 123

/-- The character with code point 125, a closing curly brace. -/
def rbrace : Char := Char.ofNat 125

/-- Model of `re.search(r'\x7b.*\x7d', text, re.DOTALL)` followed by `.group()`
(WTF.py line 188-190): the match, when it exists, runs from the first opening
brace that has a later closing brace (with leftmost-start regex semantics this
is the first opening brace whenever a match exists at all) to the last closing
brace in the text, greedily. Returns `none` when the regex does not match. -/
def braceSpan (s : List Char) : Option (List Char) :=
  match ((s.dropWhile (fun c => c != lbrace)).reverse.dropWhile (fun c => c != rbrace)).reverse with
  | [] => none
  | c :: cs => some (c :: cs)

/-- JSON values as decoded by `json.loads`.  Numbers are modelled as exact
rationals: Python decodes integer literals to exact `int`s, which the claims
are about; decimal literals are idealized as exact decimal fractions. -/
inductive Json where
  | null
  | bool (b : Bool)
  | num (q : ℚ)
  | str (s : List Char)
  | arr (elems : List Json)
  | obj (kvs : List (List Char × Json))

/-- JSON whitespace characters accepted between tokens by `json.loads`. -/
def isWs (c : Char) : Bool :=
  c == ' ' || c == '\n' || c == '\t' || c == '\r'

/-- Drop leading JSON whitespace. -/
def skipWs : List Char → List Char
  | [] => []
  | c :: cs => if isWs c then skipWs cs else c :: cs

/-- Decoding of a single-character JSON string escape. -/
def escChar : Char → Option Char
  | '\"' => some '\"'
  | '\\' => some '\\'
  | '/' => some '/'
  | 'n' => some '\n'
  | 't' => some '\t'
  | 'r' => some '\r'
  | 'b' => some (Char.ofNat 8)
  | 'f' => some (Char.ofNat 12)
  | _ => none

/-- Parse the body of a JSON string after its opening quote, returning the
decoded characters and the rest of the input after the closing quote. -/
def parseStringBody : List Char → Option (List Char × List Char)
  | [] => none
  | '\"' :: cs => some ([], cs)
  | '\\' :: [] => none
  | '\\' :: e :: cs =>
    match escChar e with
    | none => none
    | some d =>
      match parseStringBody cs with
      | none => none
      | some (str, rest) => some (d :: str, rest)
  | c :: cs =>
    if c.toNat < 32 then none
    else
      match parseStringBody cs with
      | none => none
      | some (str, rest) => some (c :: str, rest)

/-- Consume a maximal run of decimal digits, accumulating their value. -/
def parseDigits : List Char → Nat → Nat × List Char
  | [], acc => (acc, [])
  | c :: cs, acc =>
    if c.isDigit then parseDigits cs (acc * 10 + (c.toNat - 48)) else (acc, c :: cs)

/-- Parse an unsigned JSON number: a digit run with an optional fractional
part, read as an exact rational. -/
def parseUNumber (s : List Char) : Option (ℚ × List Char) :=
  match s with
  | [] => none
  | c :: _ =>
    if c.isDigit then
      let p1 := parseDigits s 0
      match p1.2 with
      | '.' :: r2 =>
        match r2 with
        | [] => none
        | d :: _ =>
          if d.isDigit then
            let p2 := parseDigits r2 0
            let k := r2.length - p2.2.length
            some ((p1.1 : ℚ) + (p2.1 : ℚ) / ((10 : ℚ) ^ k), p2.2)
          else none
      | r1 => some ((p1.1 : ℚ), r1)
    else none

/-- Parse a JSON number with an optional leading minus sign. -/
def parseNumber (s : List Char) : Option (ℚ × List Char) :=
  match s with
  | '-' :: rest =>
    match parseUNumber rest with
    | none => none
    | some (q, r) => some (-q, r)
  | _ => parseUNumber s

/-- Work items of the recursive-descent JSON parser: a value to parse, the
members of an object after its opening brace, or the items of an array after
its opening bracket. -/
inductive PFrame where
  | pval (s : List Char)
  | pmembers (s : List Char) (acc : List (List Char × Json))
  | pitems (s : List Char) (acc : List Json)

/-- Fuel-indexed recursive-descent parser for the JSON fragment produced by
the model: objects, arrays, strings, numbers, booleans and null.  Each step
consumes at least one character before recursing, so fuel exceeding the input
length never runs out. -/
def parseStep : Nat → PFrame → Option (Json × List Char)
  | 0, _ => none
  | fuel + 1, PFrame.pval s =>
    match skipWs s with
    | [] => none
    | c :: cs =>
      if c = lbrace then
        match skipWs cs with
        | [] => none
        | c2 :: cs2 =>
          if c2 = rbrace then some (Json.obj [], cs2)
          else parseStep fuel (PFrame.pmembers (c2 :: cs2) [])
      else if c = '[' then
        match skipWs cs with
        | [] => none
        | c2 :: cs2 =>
          if c2 = ']' then some (Json.arr [], cs2)
          else parseStep fuel (PFrame.pitems (c2 :: cs2) [])
      else if c = '\"' then
        match parseStringBody cs with
        | none => none
        | some (str, rest) => some (Json.str str, rest)
      else if c = 't' then
        match cs with
        | 'r' :: 'u' :: 'e' :: rest => some (Json.bool true, rest)
        | _ => none
      else if c = 'f' then
        match cs with
        | 'a' :: 'l' :: 's' :: 'e' :: rest => some (Json.bool false, rest)
        | _ => none
      else if c = 'n' then
        match cs with
        | 'u' :: 'l' :: 'l' :: rest => some (Json.null, rest)
        | _ => none
      else if c = '-' || c.isDigit then
        match parseNumber (c :: cs) with
        | none => none
        | some (q, rest) => some (Json.num q, rest)
      else none
  | fuel + 1, PFrame.pmembers s acc =>
    match skipWs s with
    | '\"' :: cs =>
      match parseStringBody cs with
      | none => none
      | some (key, r1) =>
        match skipWs r1 with
        | ':' :: r2 =>
          match parseStep fuel (PFrame.pval r2) with
          | none => none
          | some (v, r3) =>
            match skipWs r3 with
            | ',' :: r4 => parseStep fuel (PFrame.pmembers r4 (acc ++ [(key, v)]))
            | c :: r4 => if c = rbrace then some (Json.obj (acc ++ [(key, v)]), r4) else none
            | [] => none
        | _ => none
    | _ => none
  | fuel + 1, PFrame.pitems s acc =>
    match parseStep fuel (PFrame.pval s) with
    | none => none
    | some (v, r1) =>
      match skipWs r1 with
      | ',' :: r2 => parseStep fuel (PFrame.pitems r2 (acc ++ [v]))
      | c :: r2 => if c = ']' then some (Json.arr (acc ++ [v]), r2) else none
      | [] => none

/-- Model of `json.loads` (WTF.py line 192): decode the whole string as one
JSON document, allowing surrounding whitespace only; `none` models a raised
`json.JSONDecodeError`. -/
def json_loads (s : List Char) : Option Json :=
  match parseStep (s.length + 1) (PFrame.pval s) with
  | none => none
  | some (j, rest) => if skipWs rest = [] then some j else none

/-- Lookup in a decoded JSON object.  `json.loads` builds a Python dict key by
key, so a duplicated key keeps its last value; accordingly the lookup returns
the value of the last matching key. -/
def lookupLast (kvs : List (List Char × Json)) (k : List Char) : Option Json :=
  kvs.foldl (fun acc kv => if kv.fst = k then some kv.snd else acc) none

/-- Model of `nutrition_data.get(key, default)` (WTF.py lines 197-200, 207):
dictionary lookup with a default for an absent key. -/
def jsonGetD (j : Json) (k : List Char) (d : Json) : Json :=
  match j with
  | Json.obj kvs =>
    match lookupLast kvs k with
    | some v => v
    | none => d
  | _ => d

/-- The expected key `total_calories`. -/
def calKey : List Char := "total_calories".data

/-- The expected key `total_fats_g`. -/
def fatsKey : List Char := "total_fats_g".data

/-- The expected key `total_proteins_g`. -/
def protKey : List Char := "total_proteins_g".data

/-- The expected key `total_carbs_g`. -/
def carbKey : List Char := "total_carbs_g".data

/-- Outcome of the extraction stage of WTF.py lines 185-214: a decoded JSON
value, a detected brace span whose decode raised `json.JSONDecodeError`
(the warning-printing branch, line 213-214), or no brace span at all
(`re.search` returned `None`, so no decode was attempted). -/
inductive ExtractOutcome where
  | parsed (j : Json)
  | invalidJson (raw : List Char)
  | noSpan (raw : List Char)

/-- The response-extraction pipeline of WTF.py lines 185-214: search the raw
model text for the greedy brace span and decode it as JSON.  A raw text that
is empty or whitespace-only skips the search in the source (line 185), which
coincides with the no-span outcome since such a text has no brace span. -/
def extract_nutrition (raw : List Char) : ExtractOutcome :=
  match braceSpan raw with
  | none => ExtractOutcome.noSpan raw
  | some span =>
    match json_loads span with
    | some j => ExtractOutcome.parsed j
    | none => ExtractOutcome.invalidJson raw

/-- The fixed text printed before the raw response when a brace span was found
but failed to decode (WTF.py line 214). -/
def jsonWarningHead : List Char := "\n⚠️ Failed to extract JSON from response: ".data

/-- The fallback surface of the parse stage: on an invalid-JSON outcome the
source prints the warning text followed by the raw response verbatim
(WTF.py line 214); the silent no-span outcome prints nothing. -/
def fallbackWarning : ExtractOutcome → Option (List Char)
  | ExtractOutcome.invalidJson raw => some (jsonWarningHead ++ raw)
  | _ => none

/-- The nutrition record assembled from a decoded JSON object via
`nutrition_data.get(key, 0)` with per-key defaults (WTF.py lines 196-200). -/
structure NutritionData where
  total_calories : Json
  total_fats_g : Json
  total_proteins_g : Json
  total_carbs_g : Json

/-- The record produced by a successful parse, or `none` on either fallback
outcome.  Field values mirror `nutrition_data.get(key, 0)`. -/
def parsedRecord (raw : List Char) : Option NutritionData :=
  match extract_nutrition raw with
  | ExtractOutcome.parsed j =>
    some { total_calories := jsonGetD j calKey (Json.num 0)
           total_fats_g := jsonGetD j fatsKey (Json.num 0)
           total_proteins_g := jsonGetD j protKey (Json.num 0)
           total_carbs_g := jsonGetD j carbKey (Json.num 0) }
  | _ => none

/-- The process-wide accumulator state: the globals `daily_calories` and
`current_date` of WTF.py lines 14-16. -/
structure DailyState where
  daily_calories : ℚ
  current_date : Nat

/-- WTF.py lines 19-25: zero the accumulation and advance the stored date
when the stored date differs from today; otherwise leave the state alone. -/
def reset_daily_calories_if_new_day (today : Nat) (st : DailyState) : DailyState :=
  if st.current_date ≠ today then { daily_calories := 0, current_date := today } else st

/-- WTF.py lines 420-423 (`reset_calories`, wired to the reset button): set
`daily_calories` to zero.  The stored date is not read, compared or updated. -/
def reset_calories (st : DailyState) : DailyState :=
  { daily_calories := 0, current_date := st.current_date }

/-- WTF.py lines 670-675 (`refresh_goal_from_profile`): reload the goal from
the profile and re-render the progress bar from the current accumulation.
The accumulator state is neither date-checked nor mutated. -/
def refresh_goal_from_profile (profileGoal : ℚ) (st : DailyState) (oldGoal : ℚ) :
    DailyState × ℚ :=
  (st, profileGoal)

/-- Result of one non-streaming model invocation: a returned response text, or
a raised exception carrying a message. -/
inductive ModelCall where
  | ok (text : List Char)
  | exn (msg : List Char)

/-- The value added to `daily_calories` after a successful decode:
`nutrition_data.get('total_calories', 0)` (WTF.py line 207).  A present but
non-numeric value makes the Python addition on line 208 raise `TypeError`
before any assignment, caught by the outermost handler, so no amount is
produced. -/
def jsonCalories (j : Json) : Option ℚ :=
  match jsonGetD j calKey (Json.num 0) with
  | Json.num q => some q
  | _ => none

/-- The effect of one image-analysis turn on the accumulator state
(WTF.py lines 81-214): the lazy day-rollover guard runs first (line 86); a
raised extraction call (lines 143-148) returns early; otherwise the response
is parsed and only a successful decode with a numeric calorie value adds to
the total (lines 185-214). -/
def imageTurnState (today : Nat) (st : DailyState) (extraction : ModelCall) : DailyState :=
  let st1 := reset_daily_calories_if_new_day today st
  match extraction with
  | ModelCall.exn _ => st1
  | ModelCall.ok raw =>
    match extract_nutrition raw with
    | ExtractOutcome.parsed j =>
      match jsonCalories j with
      | some q => { daily_calories := st1.daily_calories + q, current_date := st1.current_date }
      | none => st1
    | _ => st1

/-- A turn fails before a successful JSON decode: the extraction call raised,
or the response had no brace span or an undecodable one. -/
def failsBeforeDecode : ModelCall → Prop
  | ModelCall.exn _ => True
  | ModelCall.ok raw => ∀ j, extract_nutrition raw ≠ ExtractOutcome.parsed j

/-- Observable events of one chat turn, in program order: a non-streaming or
streaming model invocation (kind 0 = vision extraction, 1 = naming, 2 =
streaming narrative/conversational), appending the user message with an empty
assistant side (`history.append((user_message, ""))`), or appending it already
carrying an inline error text. -/
inductive TurnEvent where
  | modelCall (kind : Nat)
  | appendUserEmpty
  | appendUserError

/-- Event order of an image submission (WTF.py lines 89-326): the extraction
call is issued at line 124; if it raises, the user message is appended with
the error text (lines 143-148); otherwise the naming call (line 154, issued
whether or not it succeeds), then the user message is appended with an empty
assistant side (line 223), then the streaming narrative call (line 303). -/
def imageTurnEvents (extraction : ModelCall) : List TurnEvent :=
  match extraction with
  | ModelCall.exn _ => [TurnEvent.modelCall 0, TurnEvent.appendUserError]
  | ModelCall.ok _ =>
    [TurnEvent.modelCall 0, TurnEvent.modelCall 1,
     TurnEvent.appendUserEmpty, TurnEvent.modelCall 2]

/-- Event order of a text-only submission (WTF.py lines 334-411): an empty
message returns immediately (lines 336-338); otherwise the user message is
appended with an empty assistant side (line 382) before the streaming
conversational call (line 388). -/
def textTurnEvents (messageNonempty : Bool) : List TurnEvent :=
  if messageNonempty then [TurnEvent.appendUserEmpty, TurnEvent.modelCall 2] else []

/-- Whether an event is a model invocation of any kind. -/
def isModelCallEv : TurnEvent → Bool
  | TurnEvent.modelCall _ => true
  | _ => false

/-- Whether an event is the streaming model invocation. -/
def isStreamCallEv : TurnEvent → Bool
  | TurnEvent.modelCall k => k == 2
  | _ => false

/-- Whether an event appends the user message with an empty assistant side. -/
def isEmptyUserAppend : TurnEvent → Bool
  | TurnEvent.appendUserEmpty => true
  | _ => false

/-- The user message is appended, with an empty assistant side, before any
model call of the turn (vacuously when no model call occurs). -/
def appendBeforeAnyCall (t : List TurnEvent) : Bool :=
  match t.findIdx? isModelCallEv with
  | none => true
  | some i =>
    match t.findIdx? isEmptyUserAppend with
    | none => false
    | some j => decide (j < i)

/-- The user message is appended, with an empty assistant side, before the
streaming call of the turn (vacuously when no streaming call occurs). -/
def appendBeforeStreamCall (t : List TurnEvent) : Bool :=
  match t.findIdx? isStreamCallEv with
  | none => true
  | some i =>
    match t.findIdx? isEmptyUserAppend with
    | none => false
    | some j => decide (j < i)

/-- The successive assistant texts published while streaming (WTF.py lines
316-321 and 401-406): starting from accumulator `acc`, each truthy fragment
is appended to the accumulator and the new text is published; falsy (empty or
absent) fragments publish nothing. -/
def streamSnapshots (acc : List Char) : List (List Char) → List (List Char)
  | [] => []
  | c :: rest =>
    if c.isEmpty then streamSnapshots acc rest
    else (acc ++ c) :: streamSnapshots (acc ++ c) rest

/-- The fixed text put in front of the exception message when the image-path
stream raises (WTF.py line 324). -/
def imageStreamErrorHead : List Char := "Sorry, I had trouble analyzing the image: ".data

/-- All assistant texts published during one streamed response: the snapshots
of the consumed fragments and, when the stream raises after them, the inline
error text that the handler assigns over the turn (WTF.py lines 323-326):
`ai_response` is rebound to the error text and `history[-1]` is overwritten
with it. -/
def streamShownTexts (chunks : List (List Char)) (err : Option (List Char)) :
    List (List Char) :=
  match err with
  | none => streamSnapshots [] chunks
  | some m => streamSnapshots [] chunks ++ [imageStreamErrorHead ++ m]

/-- `new` extends `old`: `old` is an initial segment of `new`. -/
def growsFrom (old new : List Char) : Bool :=
  match old, new with
  | [], _ => true
  | _ :: _, [] => false
  | a :: os, b :: ns => a == b && growsFrom os ns

/-- Every text in the list extends the one before it. -/
def chainGrows : List (List Char) → Bool
  | [] => true
  | [_] => true
  | x :: y :: rest => growsFrom x y && chainGrows (y :: rest)

/-- A persisted meal row.  models.py lines 18-22: the `Food` table declares
exactly the columns `id`, `name`, `calories`, `created_at` — it has no fats,
proteins or carbs columns. -/
structure Food where
  id : Nat
  name : List Char
  calories : ℚ
  created_at : Nat

/-- database.py lines 13-20 (`save_food`): construct a `Food` row and append
it to the table.  The call passes `fats`, `proteins` and `carbs`, but the
`Food` model declares no such fields, and SQLModel table models silently
discard constructor keywords that are neither fields nor relationships, so
only `name` and `calories` reach the stored row. -/
def save_food (db : List Food) (now : Nat) (name : List Char)
    (calories fats proteins carbs : ℚ) : List Food :=
  db ++ [{ id := db.length, name := name, calories := calories, created_at := now }]

/-- Insert a row into a list kept in descending `created_at` order. -/
def insertByDateDesc (f : Food) : List Food → List Food
  | [] => [f]
  | g :: gs => if g.created_at ≤ f.created_at then f :: g :: gs else g :: insertByDateDesc f gs

/-- database.py lines 22-27 (`get_all_foods`): all rows ordered by
`created_at` descending, i.e. most recent first. -/
def get_all_foods (db : List Food) : List Food :=
  db.foldr insertByDateDesc []

/-- WTF.py lines 29-32: the reported progress percentage — zero when the goal
is not positive, otherwise consumed over goal times one hundred, uncapped. -/
def progress_percentage (current_calories daily_goal : ℚ) : ℚ :=
  if daily_goal ≤ 0 then 0 else current_calories / daily_goal * 100

/-- WTF.py line 41: the visual bar width is the percentage capped at 100. -/
def visual_width (current_calories daily_goal : ℚ) : ℚ :=
  min (progress_percentage current_calories daily_goal) 100

/-- ASCII lowering of one character, modelling Python `str.lower()` on the
ASCII inputs the profile form produces. -/
def lowerChar (c : Char) : Char :=
  if 65 ≤ c.toNat ∧ c.toNat ≤ 90 then Char.ofNat (c.toNat + 32) else c

/-- Python `str.lower()` over an embedded text. -/
def lowerStr (s : List Char) : List Char :=
  s.map lowerChar

/-- The gender string selecting the male constant. -/
def maleStr : List Char := "male".data

/-- user_profile.py lines 41-47 (`UserProfile.calculate_bmr`): the
Mifflin-St Jeor equation, with the +5 constant exactly when the lowered
gender equals "male" and the -161 constant for every other gender value. -/
def calculate_bmr (age : ℚ) (gender : List Char) (height_cm weight_kg : ℚ) : ℚ :=
  if lowerStr gender = maleStr then
    10 * weight_kg + (6.25 : ℚ) * height_cm - 5 * age + 5
  else
    10 * weight_kg + (6.25 : ℚ) * height_cm - 5 * age - 161

/-- user_profile.py lines 51-59: `activity_multipliers.get(level, 1.55)`. -/
def activity_multiplier (level : List Char) : ℚ :=
  if level = "sedentary".data then 1.2
  else if level = "light".data then 1.375
  else if level = "moderate".data then 1.55
  else if level = "active".data then 1.725
  else if level = "very_active".data then 1.9
  else 1.55

/-- Python `int(x)` on a real value: truncation toward zero.  On an exact
rational in lowest terms this is the numerator divided by the denominator
with Lean's truncating integer division. -/
def pyInt (q : ℚ) : Int :=
  Int.tdiv q.num (q.den : Int)

/-- user_profile.py lines 49-60 (`calculate_daily_calories`):
`int(bmr * activity_multiplier)`. -/
def calculate_daily_calories (bmr : ℚ) (level : List Char) : Int :=
  pyInt (bmr * activity_multiplier level)

/-- user_profile.py lines 95-101: `goal_adjustments.get(goal_type, 1.0)`. -/
def goal_adjustment (goal : List Char) : ℚ :=
  if goal = "maintain".data then 1
  else if goal = "lose_slow".data then 0.9
  else if goal = "lose_fast".data then 0.8
  else if goal = "gain_slow".data then 1.1
  else if goal = "gain_fast".data then 1.2
  else 1

/-- user_profile.py line 103: `int(base_calories * goal_adjustments.get(...))`. -/
def target_calories (base : Int) (goal : List Char) : Int :=
  pyInt ((base : ℚ) * goal_adjustment goal)

/-! ## Helper lemmas -/

/-- Dropping while a predicate holds skips over a block on which it holds
everywhere. -/
theorem dropWhile_append_of_all {α : Type} (p : α → Bool) (l₁ l₂ : List α)
    (h : ∀ c ∈ l₁, p c = true) :
    (l₁ ++ l₂).dropWhile p = l₂.dropWhile p := by
  induction l₁ with
  | nil => rfl
  | cons x xs ih =>
    rw [List.cons_append, List.dropWhile_cons_of_pos (h x (List.mem_cons_self x xs))]
    exact ih (fun c hc => h c (List.mem_cons_of_mem x hc))

/-- The greedy brace-span search on a text whose single brace-delimited block
is surrounded by prose with no opening brace before it and no closing brace
after it returns exactly that block. -/
theorem braceSpan_pre_post (pre mid post : List Char)
    (hpre : ∀ c ∈ pre, c ≠ lbrace) (hpost : ∀ c ∈ post, c ≠ rbrace) :
    braceSpan (pre ++ (lbrace :: (mid ++ [rbrace])) ++ post)
      = some (lbrace :: (mid ++ [rbrace])) := by
  have h1 : (pre ++ (lbrace :: (mid ++ [rbrace])) ++ post).dropWhile (fun c => c != lbrace)
      = lbrace :: ((mid ++ [rbrace]) ++ post) := by
    rw [List.append_assoc]
    rw [dropWhile_append_of_all _ pre _ (fun c hc => by simpa using hpre c hc)]
    rw [List.cons_append]
    rw [List.dropWhile_cons_of_neg (by simp)]
  have h2 : ((lbrace :: ((mid ++ [rbrace]) ++ post)).reverse).dropWhile (fun c => c != rbrace)
      = rbrace :: (mid.reverse ++ [lbrace]) := by
    have e1 : (lbrace :: ((mid ++ [rbrace]) ++ post)).reverse
        = post.reverse ++ (rbrace :: (mid.reverse ++ [lbrace])) := by
      simp
    rw [e1]
    rw [dropWhile_append_of_all _ post.reverse _
      (fun c hc => by rw [List.mem_reverse] at hc; simpa using hpost c hc)]
    rw [List.dropWhile_cons_of_neg (by simp)]
  unfold braceSpan
  rw [h1, h2]
  have h3 : (rbrace :: (mid.reverse ++ [lbrace])).reverse = lbrace :: (mid ++ [rbrace]) := by
    simp
  rw [h3]

/-- Python truncation of an embedded natural number is that number. -/
theorem pyInt_natCast (n : ℕ) : pyInt ((n : ℕ) : ℚ) = (n : ℤ) := by
  simp [pyInt]

/-- A text extends itself followed by anything appended to it. -/
theorem growsFrom_append (a b : List Char) : growsFrom a (a ++ b) = true := by
  induction a with
  | nil => rfl
  | cons x xs ih => simp [growsFrom, ih]

/-- Starting from any already-shown text, the successive streamed snapshots
form a chain in which each published text extends the previous one. -/
theorem chainGrows_snapshots (chunks : List (List Char)) (acc : List Char) :
    chainGrows (acc :: streamSnapshots acc chunks) = true := by
  induction chunks generalizing acc with
  | nil => rfl
  | cons c rest ih =>
    by_cases hc : c.isEmpty
    · simpa [streamSnapshots, hc] using ih acc
    · simp [streamSnapshots, hc, chainGrows, growsFrom_append, ih (acc ++ c)]

/-! ## Claims -/

/-- C1: for every raw model text containing exactly one well-formed JSON
object — the brace span running from the first opening brace to the last
closing brace — with all four keys `total_calories`, `total_fats_g`,
`total_proteins_g`, `total_carbs_g` bound to numbers, the parser succeeds and
the produced nutrition record carries exactly those numeric values, regardless
of any prose before or after the object. -/
theorem C1_exact_extraction (pre mid post : List Char) (kvs : List (List Char × Json))
    (c f p b : ℚ)
    (hpre : ∀ ch ∈ pre, ch ≠ lbrace)
    (hpost : ∀ ch ∈ post, ch ≠ rbrace)
    (hjson : json_loads (lbrace :: (mid ++ [rbrace])) = some (Json.obj kvs))
    (hc : lookupLast kvs calKey = some (Json.num c))
    (hf : lookupLast kvs fatsKey = some (Json.num f))
    (hp : lookupLast kvs protKey = some (Json.num p))
    (hb : lookupLast kvs carbKey = some (Json.num b)) :
    parsedRecord (pre ++ (lbrace :: (mid ++ [rbrace])) ++ post)
      = some { total_calories := Json.num c, total_fats_g := Json.num f,
               total_proteins_g := Json.num p, total_carbs_g := Json.num b } := by
  simp only [parsedRecord, extract_nutrition, braceSpan_pre_post pre mid post hpre hpost,
    hjson, jsonGetD, hc, hf, hp, hb]

/-- Witness for C1 at the end-to-end example text of the specification. -/
theorem C1_witness :
    parsedRecord (("Analyzing... ".data)
        ++ (lbrace :: (("\"total_calories\": 450, \"total_fats_g\": 12, \"total_proteins_g\": 20, \"total_carbs_g\": 55".data) ++ [rbrace]))
        ++ (" Enjoy!".data))
      = some { total_calories := Json.num ((450 : Nat) : ℚ),
               total_fats_g := Json.num ((12 : Nat) : ℚ),
               total_proteins_g := Json.num ((20 : Nat) : ℚ),
               total_carbs_g := Json.num ((55 : Nat) : ℚ) } :=
  C1_exact_extraction ("Analyzing... ".data)
    ("\"total_calories\": 450, \"total_fats_g\": 12, \"total_proteins_g\": 20, \"total_carbs_g\": 55".data)
    (" Enjoy!".data)
    [(calKey, Json.num ((450 : Nat) : ℚ)), (fatsKey, Json.num ((12 : Nat) : ℚ)),
     (protKey, Json.num ((20 : Nat) : ℚ)), (carbKey, Json.num ((55 : Nat) : ℚ))]
    ((450 : Nat) : ℚ) ((12 : Nat) : ℚ) ((20 : Nat) : ℚ) ((55 : Nat) : ℚ)
    (by decide) (by decide) (by rfl) (by rfl) (by rfl) (by rfl) (by rfl)

/-- C2 counterexample: the claim requires the stored date to equal today at
the moment of any read or write, but the manual reset (`reset_calories`,
WTF.py lines 420-423) performs no date comparison: run on a day with index 1
while the stored date is still 0, it zeroes the calories yet leaves the
stored date at 0, which differs from today. -/
theorem C2_counterexample :
    (reset_calories { daily_calories := 500, current_date := 0 }).current_date = 0 ∧
    (0 : Nat) ≠ 1 := by
  exact ⟨rfl, by decide⟩

/-- C2 amended: the day-rollover comparison runs at the start of every chat
submission (WTF.py line 86) — there it zeroes a stale total and advances the
stored date, so after any chat turn the stored date equals today — but the
manual reset only zeroes the accumulation without touching the stored date,
and the goal refresh neither checks the date nor mutates the accumulator
state. -/
theorem C2_amended_rollover_discipline (today : Nat) (st : DailyState) :
    (reset_daily_calories_if_new_day today st).current_date = today ∧
    (st.current_date ≠ today → (reset_daily_calories_if_new_day today st).daily_calories = 0) ∧
    (st.current_date = today → reset_daily_calories_if_new_day today st = st) ∧
    reset_calories st = { daily_calories := 0, current_date := st.current_date } ∧
    (∀ pg g : ℚ, (refresh_goal_from_profile pg st g).1 = st) ∧
    (∀ ext : ModelCall, (imageTurnState today st ext).current_date = today) := by
  have hdate : (reset_daily_calories_if_new_day today st).current_date = today := by
    unfold reset_daily_calories_if_new_day
    by_cases h : st.current_date = today
    · rw [if_neg (not_not_intro h)]
      exact h
    · rw [if_pos h]
  refine ⟨hdate, ?_, ?_, rfl, fun pg g => rfl, ?_⟩
  · intro hne
    unfold reset_daily_calories_if_new_day
    rw [if_pos hne]
  · intro heq
    unfold reset_daily_calories_if_new_day
    rw [if_neg (not_not_intro heq)]
  · intro ext
    cases ext with
    | exn m => exact hdate
    | ok raw =>
      unfold imageTurnState
      cases hx : extract_nutrition raw with
      | parsed j =>
        cases hy : jsonCalories j with
        | some q => simpa [hx, hy] using hdate
        | none => simpa [hx, hy] using hdate
      | invalidJson r => simpa [hx] using hdate
      | noSpan r => simpa [hx] using hdate

/-- Witness for the amended C2 at a concrete stale state. -/
theorem C2_witness :
    (reset_daily_calories_if_new_day 1 { daily_calories := 500, current_date := 0 }).daily_calories = 0 ∧
    (reset_calories { daily_calories := 500, current_date := 0 }).current_date = 0 := by
  have h := C2_amended_rollover_discipline 1 { daily_calories := 500, current_date := 0 }
  refine ⟨h.2.1 (by decide), ?_⟩
  rw [h.2.2.2.1]

/-- C3: for every raw model text whose brace span fails to decode as JSON,
the outcome is the invalid-JSON flag — a constructor distinguishable from the
no-span outcome — and the fallback surface carries the raw text verbatim
behind the fixed warning text. -/
theorem C3_invalid_json_flagged (raw span : List Char)
    (hspan : braceSpan raw = some span) (hbad : json_loads span = none) :
    extract_nutrition raw = ExtractOutcome.invalidJson raw ∧
    fallbackWarning (extract_nutrition raw) = some (jsonWarningHead ++ raw) ∧
    extract_nutrition raw ≠ ExtractOutcome.noSpan raw := by
  have h : extract_nutrition raw = ExtractOutcome.invalidJson raw := by
    simp only [extract_nutrition, hspan, hbad]
  refine ⟨h, ?_, ?_⟩
  · rw [h]
    rfl
  · rw [h]
    intro hcontra
    exact ExtractOutcome.noConfusion hcontra

/-- Witness for C3 on a brace span holding invalid JSON. -/
theorem C3_witness :
    extract_nutrition ("\x7bnot valid json\x7d".data)
        = ExtractOutcome.invalidJson ("\x7bnot valid json\x7d".data) ∧
    fallbackWarning (extract_nutrition ("\x7bnot valid json\x7d".data))
        = some (jsonWarningHead ++ "\x7bnot valid json\x7d".data) ∧
    extract_nutrition ("\x7bnot valid json\x7d".data)
        ≠ ExtractOutcome.noSpan ("\x7bnot valid json\x7d".data) :=
  C3_invalid_json_flagged ("\x7bnot valid json\x7d".data) ("\x7bnot valid json\x7d".data)
    (by rfl) (by rfl)

/-- C4 counterexample: the claim says a failing image-analysis turn leaves
the daily total exactly unchanged, but the turn begins with the lazy
day-rollover guard: on a turn run on day 1 with a stale total of 500 from
day 0, a raised extraction call still ends the turn with the total at 0,
not 500. -/
theorem C4_counterexample :
    (imageTurnState 1 { daily_calories := 500, current_date := 0 }
        (ModelCall.exn [])).daily_calories = 0 ∧
    (0 : ℚ) ≠ 500 := by
  refine ⟨rfl, ?_⟩
  norm_num

/-- C4 amended: an image-analysis turn that fails before a successful JSON
decode — raised extraction call, no brace span, or undecodable span — leaves
the accumulator exactly as the day-rollover guard at the start of the turn
set it; in particular, when the stored date already equals today the daily
total is exactly unchanged. -/
theorem C4_amended_frame (today : Nat) (st : DailyState) (ext : ModelCall)
    (hfail : failsBeforeDecode ext) :
    imageTurnState today st ext = reset_daily_calories_if_new_day today st ∧
    (st.current_date = today →
      (imageTurnState today st ext).daily_calories = st.daily_calories) := by
  have h : imageTurnState today st ext = reset_daily_calories_if_new_day today st := by
    cases ext with
    | exn m => rfl
    | ok raw =>
      unfold imageTurnState
      cases hx : extract_nutrition raw with
      | parsed j => exact absurd hx (hfail j)
      | invalidJson r => simp [hx]
      | noSpan r => simp [hx]
  refine ⟨h, fun heq => ?_⟩
  rw [h]
  unfold reset_daily_calories_if_new_day
  rw [if_neg (not_not_intro heq)]

/-- Witness for the amended C4: a raised extraction call on a same-day state
leaves the total at 500. -/
theorem C4_witness :
    (imageTurnState 0 { daily_calories := 500, current_date := 0 }
        (ModelCall.exn [])).daily_calories = 500 :=
  (C4_amended_frame 0 { daily_calories := 500, current_date := 0 }
    (ModelCall.exn []) True.intro).2 rfl

/-- C5: the claim says recording a parsed meal persists an entity retaining
all four numeric fields, but the `Food` table of models.py declares no fats,
proteins or carbs columns, so the three macro arguments of `save_food` are
silently discarded: two calls differing only in the macro arguments persist
identical rows, and at the failing input the stored row carries only the name
and the calories.  WTF.py's own text-chat path (line 350) reads
`food.fats`, `food.proteins`, `food.carbs` from listed rows, which such rows
cannot supply — the code contradicts its own callers. -/
theorem C5_macros_dropped :
    (∀ (db : List Food) (now : Nat) (name : List Char)
        (calories fats proteins carbs fats2 proteins2 carbs2 : ℚ),
      save_food db now name calories fats proteins carbs
        = save_food db now name calories fats2 proteins2 carbs2) ∧
    save_food [] 0 ("Pizza".data) 450 12 20 55
      = [{ id := 0, name := "Pizza".data, calories := 450, created_at := 0 }] :=
  ⟨fun _ _ _ _ _ _ _ _ _ _ => rfl, rfl⟩

/-- C6 counterexample: the claim says the user message is appended, with an
empty assistant side, before any model call of the turn; but on an image
submission whose extraction call succeeds, the extraction call (and the
naming call) are issued before the user message is appended. -/
theorem C6_counterexample :
    appendBeforeAnyCall (imageTurnEvents (ModelCall.ok [])) = false := by
  rfl

/-- C6 amended: for text-only submissions the user message is appended, with
an empty assistant side, before any model call of the turn; for image
submissions it is appended before the streaming narrative call, but after the
non-streaming extraction and naming calls (and a raised extraction call
appends it carrying the inline error text instead). -/
theorem C6_amended_ordering :
    (∀ b : Bool, appendBeforeAnyCall (textTurnEvents b) = true) ∧
    (∀ ext : ModelCall, appendBeforeStreamCall (imageTurnEvents ext) = true) := by
  constructor
  · intro b
    cases b <;> rfl
  · intro ext
    cases ext <;> rfl

/-- C7 counterexample: the claim says that if the stream raises partway the
partial text already shown is retained; but the handler overwrites the shown
turn with the inline error text: after a fragment produced the text "Hello",
a raised stream makes the published sequence end in an error text that does
not extend "Hello". -/
theorem C7_counterexample :
    chainGrows (([] : List Char) :: streamShownTexts ["Hello".data] (some ("boom".data)))
      = false := by
  decide

/-- C7 amended: while a streamed response is arriving the assistant text is
append-only — starting from the empty text, each published update extends the
previously shown text — but if the stream raises partway, the partial text is
replaced by the inline error text rather than retained. -/
theorem C7_amended_append_only (chunks : List (List Char)) (m : List Char) :
    chainGrows (([] : List Char) :: streamShownTexts chunks none) = true ∧
    streamShownTexts chunks (some m)
      = streamShownTexts chunks none ++ [imageStreamErrorHead ++ m] :=
  ⟨chainGrows_snapshots chunks [], rfl⟩

/-- C8: for every accumulated value and goal, the reported percent is
consumed over goal times one hundred when the goal is positive and zero
otherwise, the percent itself is not capped, and the visual bar width is
separately clamped to at most one hundred. -/
theorem C8_uncapped_percent (current goal : ℚ) :
    (0 < goal → progress_percentage current goal = current / goal * 100) ∧
    (goal ≤ 0 → progress_percentage current goal = 0) ∧
    visual_width current goal = min (progress_percentage current goal) 100 ∧
    visual_width current goal ≤ 100 := by
  refine ⟨?_, ?_, rfl, min_le_right _ _⟩
  · intro h
    unfold progress_percentage
    rw [if_neg (not_le.mpr h)]
  · intro h
    unfold progress_percentage
    rw [if_pos h]

/-- Witness for C8 at 2500 consumed against a goal of 2000: the reported
percent is 125, above 100 and uncapped, while the bar width is clamped
to 100. -/
theorem C8_witness :
    progress_percentage 2500 2000 = 125 ∧ visual_width 2500 2000 = 100 := by
  have h := C8_uncapped_percent 2500 2000
  have hp : progress_percentage 2500 2000 = 125 := by
    rw [h.1 (by norm_num)]
    norm_num
  refine ⟨hp, ?_⟩
  rw [h.2.2.1, hp]
  norm_num [min_def]

/-- C9 counterexample: for the profile male, age 30, height 180 cm, weight
80 kg, the Mifflin-St Jeor formula of the source yields a BMR of
10*80 + 6.25*180 - 5*30 + 5 = 1780, not the 1742.5 stated by the claim. -/
theorem C9_counterexample :
    calculate_bmr 30 ("male".data) 180 80 = 1780 ∧
    calculate_bmr 30 ("male".data) 180 80 ≠ (1742.5 : ℚ) := by
  have h : calculate_bmr 30 ("male".data) 180 80 = 1780 := by
    unfold calculate_bmr
    rw [if_pos (by decide)]
    norm_num
  refine ⟨h, ?_⟩
  rw [h]
  norm_num

/-- C9 amended: for the profile male, age 30, height 180 cm, weight 80 kg,
moderate activity, maintain goal, the calculator yields BMR
= 10*80 + 6.25*180 - 5*30 + 5 = 1780, maintenance calories
= int(1780 * 1.55) = 2759 (Python `int` truncation; the product is exact
here), and target calories = int(2759 * 1.0) = 2759. -/
theorem C9_amended_values :
    calculate_bmr 30 ("male".data) 180 80 = 1780 ∧
    calculate_daily_calories (calculate_bmr 30 ("male".data) 180 80) ("moderate".data) = 2759 ∧
    target_calories
        (calculate_daily_calories (calculate_bmr 30 ("male".data) 180 80) ("moderate".data))
        ("maintain".data) = 2759 := by
  have hbmr : calculate_bmr 30 ("male".data) 180 80 = 1780 := by
    unfold calculate_bmr
    rw [if_pos (by decide)]
    norm_num
  have hmult : activity_multiplier ("moderate".data) = 1.55 := by
    unfold activity_multiplier
    rw [if_neg (by decide), if_neg (by decide), if_pos (by decide)]
  have hmaint : calculate_daily_calories (calculate_bmr 30 ("male".data) 180 80)
      ("moderate".data) = 2759 := by
    rw [hbmr]
    unfold calculate_daily_calories
    rw [hmult]
    have he : (1780 : ℚ) * 1.55 = ((2759 : ℕ) : ℚ) := by norm_num
    rw [he, pyInt_natCast]
    norm_num
  have hadj : goal_adjustment ("maintain".data) = 1 := by
    unfold goal_adjustment
    rw [if_pos rfl]
  have htarget : target_calories 2759 ("maintain".data) = 2759 := by
    unfold target_calories
    rw [hadj]
    have he : ((2759 : ℤ) : ℚ) * 1 = ((2759 : ℕ) : ℚ) := by norm_num
    rw [he, pyInt_natCast]
    norm_num
  refine ⟨hbmr, hmaint, ?_⟩
  rw [hmaint]
  exact htarget

/-- C10: for every gender string whose ASCII lowering differs from "male" —
"female", the empty string, or any other value — the BMR calculation applies
the female constant of minus 161; no gender value is rejected. -/
theorem C10_nonmale_female_constant (age : ℚ) (gender : List Char)
    (height_cm weight_kg : ℚ) (h : lowerStr gender ≠ maleStr) :
    calculate_bmr age gender height_cm weight_kg
      = 10 * weight_kg + (6.25 : ℚ) * height_cm - 5 * age - 161 := by
  unfold calculate_bmr
  rw [if_neg h]

/-- Witness for C10 at the gender strings "female" and "", both taking the
female constant. -/
theorem C10_witness :
    lowerStr ("female".data) ≠ maleStr ∧
    calculate_bmr 30 ("female".data) 180 80 = 1614 ∧
    lowerStr ("".data) ≠ maleStr ∧
    calculate_bmr 30 ("".data) 180 80 = 1614 := by
  refine ⟨by decide, ?_, by decide, ?_⟩
  · rw [C10_nonmale_female_constant 30 ("female".data) 180 80 (by decide)]
    norm_num
  · rw [C10_nonmale_female_constant 30 ("".data) 180 80 (by decide)]
    norm_num
